import Mathlib

/-!
Verification development for the WMCore WorkQueue scheduling/coordination engine.

The definitions below are a shallow embedding of the Python source:

* `WMCore/WorkQueue/WorkQueue.py` — the queue engine (`cancelWork`, `resetWork`,
  `pullWork`, `pullWorkConditionCheck`, `_assignToChildQueue`, `closeWork`,
  `getWork`, `_wmbsPreparation`, `queueWork`).
* `WMCore/WMSpec/StdSpecs/TaskChain.py` — the `ParameterStorage` decorator.

Parts of the repository that the snapshot does not contain (the
`WorkQueueElement` data structure, the `WorkQueueBackend`, and the
`SingleShot` end policy, of which only a unit test is present) are modelled
from the specification; such definitions carry a doc comment starting with
`Modelled from the spec:`.

External collaborators (CouchDB, DBS/PhEDEx adapters, WMBS) are represented
by explicit inputs: query results are passed in as lists, and fallible RPCs
appear as `RPCResult` outcomes recorded on the inputs.
-/

/-- Element status values, from the spec §3 / §4.2 (the string constants used
throughout `WorkQueue.py`). -/
inductive WQStatus where
  | Available
  | Negotiating
  | Acquired
  | Running
  | Done
  | Failed
  | CancelRequested
  | Canceled
deriving DecidableEq, Repr, BEq

/-- Modelled from the spec: `WorkQueueElement.inEndState` (the
`WMCore/WorkQueue/DataStructs/WorkQueueElement.py` file is not in the
snapshot).  §4.2: "End states: `Done`, `Failed`, `Canceled`." -/
def inEndState (s : WQStatus) : Bool :=
  s = WQStatus.Done || s = WQStatus.Failed || s = WQStatus.Canceled

/-- Python truthiness of an optional string value (`None` and the empty
string are falsy); used for fields like `ChildQueueUrl` and parameters like
`ParentQueueCouchUrl` that the source tests with bare `if x:`. -/
def truthyOpt : Option String → Bool
  | none => false
  | some s => !(s == "")

/-- A work-queue element, with the fields of the element documents that the
engine code reads and writes (spec §3; `WorkQueue.py` accesses them as
dictionary keys). Timestamps and slot counts are integers. -/
structure WQElement where
  elemId : Nat
  RequestName : String
  Status : WQStatus
  ChildQueueUrl : Option String := none
  ParentQueueUrl : Option String := none
  WMBSUrl : Option String := none
  updatetime : Int := 0
  Priority : Int := 0
  InsertTime : Int := 0
  Jobs : Int := 0
  PossibleSites : List String := []
deriving DecidableEq, Repr

/-- Test of the §4.2 state-machine partial order: `wqStatusLE a b` holds when
`b` is reachable from `a` along the transition edges of the diagram
(including the `Available` analogue of `Negotiating` and the promotion of
`Available` elements to `Negotiating` performed by `pullWork`). -/
def wqStatusLE (a b : WQStatus) : Bool :=
  match a with
  | WQStatus.Available => true
  | WQStatus.Negotiating => !(b == WQStatus.Available)
  | WQStatus.Acquired =>
      b == WQStatus.Acquired || b == WQStatus.Running || b == WQStatus.Done ||
      b == WQStatus.Failed || b == WQStatus.CancelRequested || b == WQStatus.Canceled
  | WQStatus.Running =>
      b == WQStatus.Running || b == WQStatus.Done || b == WQStatus.Failed ||
      b == WQStatus.CancelRequested || b == WQStatus.Canceled
  | WQStatus.Done => b == WQStatus.Done
  | WQStatus.Failed => b == WQStatus.Failed
  | WQStatus.CancelRequested => b == WQStatus.CancelRequested || b == WQStatus.Canceled
  | WQStatus.Canceled => b == WQStatus.Canceled

/-- Modelled from the spec: the status merge rule of the backend's
`fixConflicts` (`WorkQueueBackend.py` is not in the snapshot).  §4.1/§5:
"status takes the maximum along the state-machine partial order", "the
backend rejects retrograde transitions at merge time (taking the maximum)".
When the two statuses are incomparable the current value is kept. -/
def mergeStatus (current incoming : WQStatus) : WQStatus :=
  if wqStatusLE current incoming then incoming else current

/-- `WorkQueue.resetWork` applied to one stored element (`WorkQueue.py`
lines 301-318): `updateElements(*ids, Status='Available',
ChildQueueUrl=None, WMBSUrl=None)`. -/
def resetWorkElement (e : WQElement) : WQElement :=
  { e with Status := WQStatus.Available, ChildQueueUrl := none, WMBSUrl := none }

/-- `WorkQueue.resetWork` over the element store: the field-level update is
applied to every element whose id is in `ids`. -/
def resetWork (ids : List Nat) (store : List WQElement) : List WQElement :=
  store.map (fun e => if ids.contains e.elemId then resetWorkElement e else e)

/-! ### TaskChain `ParameterStorage` (C10) -/

/-- The nine global parameters that `ParameterStorage.validParameters` maps
(`TaskChain.py` lines 120-129). -/
inductive TCParam where
  | globalTag
  | frameworkVersion
  | scramArch
  | processingVersion
  | processingString
  | acquisitionEra
  | timePerEvent
  | sizePerEvent
  | memory
deriving DecidableEq, Repr

/-- A Python attribute value as seen by `getattr(obj, param, None)`: either
absent/None or some value (values left opaque as strings). -/
def PyVal : Type := Option String

/-- Python truthiness of an attribute/dictionary value as used by
`if taskConf.get(self.validParameters[param]):`. -/
def truthyVal (v : PyVal) : Bool :=
  match v with
  | none => false
  | some s => !(s == "")

/-- The state of a `TaskChainWorkloadFactory` instance, split into the nine
`validParameters` attributes and the rest of the instance (tasks built,
workload, other attributes), which `ParameterStorage` never touches. -/
structure FactoryState (Rest : Type) where
  params : TCParam → PyVal
  rest : Rest

/-- `ParameterStorage.storeParameters`: copy each valid parameter from the
instance into the decorator (`getattr(self.obj, param, None)`). -/
def storeParameters {Rest : Type} (obj : FactoryState Rest) : TCParam → PyVal :=
  fun p => obj.params p

/-- `ParameterStorage.alterParameters`: for each parameter take the stored
global value unless the task configuration has a truthy override. -/
def alterParameters {Rest : Type} (stored : TCParam → PyVal)
    (taskConf : TCParam → PyVal) (obj : FactoryState Rest) : FactoryState Rest :=
  { obj with params := fun p => if truthyVal (taskConf p) then taskConf p else stored p }

/-- `ParameterStorage.restoreParameters`: write every stored global value
back onto the instance. -/
def restoreParameters {Rest : Type} (stored : TCParam → PyVal)
    (obj : FactoryState Rest) : FactoryState Rest :=
  { obj with params := fun p => stored p }

/-- `ParameterStorage.__call__` (`TaskChain.py` lines 141-154): store the
globals, alter them from the task configuration, run the wrapped setup
method (`func`, an arbitrary state transformer — `setupTask` or
`setupGeneratorTask`), then restore the globals.  (`resetParameters` only
clears the decorator's own copies and does not touch the instance.) -/
def parameterStorageCall {Rest : Type} (func : FactoryState Rest → FactoryState Rest)
    (taskConf : TCParam → PyVal) (obj : FactoryState Rest) : FactoryState Rest :=
  let stored := storeParameters obj
  let altered := alterParameters stored taskConf obj
  let afterFunc := func altered
  restoreParameters stored afterFunc

/-- C10: every `ParameterStorage`-decorated task-setup call leaves the nine
global parameters of the factory instance with the same values it found,
whatever the per-task configuration overrides and whatever the wrapped
setup method does to them. -/
theorem C10_parameterStorage_preserves_globals {Rest : Type}
    (func : FactoryState Rest → FactoryState Rest)
    (taskConf : TCParam → PyVal) (obj : FactoryState Rest) (p : TCParam) :
    (parameterStorageCall func taskConf obj).params p = obj.params p := by
  rfl

/-! ### Status monotonicity, `resetWork` and the merge rule (C3) -/

/-- A concrete `Running` element attached to a child queue, as `resetWork`
would receive it. -/
def runningElem : WQElement :=
  { elemId := 7, RequestName := "wf1", Status := WQStatus.Running,
    ChildQueueUrl := some "http://child.example/wq", WMBSUrl := some "http://wmbs.example",
    updatetime := 10 }

/-- C3 counterexample: `resetWork` is an operation of the queue engine that
moves a `Running` element back to `Available`, a strictly earlier state of
the §4.2 partial order, so the status trajectory of an element is not
monotone under every operation. -/
theorem C3_counterexample_resetWork_retrograde :
    (resetWork [7] [runningElem]).map (fun e => e.Status) = [WQStatus.Available] ∧
    wqStatusLE WQStatus.Available WQStatus.Running = true ∧
    wqStatusLE WQStatus.Running WQStatus.Available = false := by
  decide

/-- C3 (amended): status updates are monotone along the §4.2 partial order
at backend merge time — the merge takes the maximum, so the merged status is
never strictly earlier than the current one, and equals the incoming status
whenever that one is at least the current one; but the engine operation
`resetWork` deliberately returns elements to `Available`. -/
theorem C3_merge_monotone (current incoming : WQStatus) :
    wqStatusLE current (mergeStatus current incoming) = true ∧
    (wqStatusLE current incoming = true → mergeStatus current incoming = incoming) := by
  cases current <;> cases incoming <;> decide

/-- Witness for `C3_merge_monotone` at a concrete pair of statuses. -/
theorem C3_merge_monotone_witness :
    wqStatusLE WQStatus.Acquired (mergeStatus WQStatus.Acquired WQStatus.Running) = true ∧
    mergeStatus WQStatus.Acquired WQStatus.Running = WQStatus.Running := by
  exact ⟨(C3_merge_monotone WQStatus.Acquired WQStatus.Running).1,
    (C3_merge_monotone WQStatus.Acquired WQStatus.Running).2 (by decide)⟩

/-! ### `cancelWork`, global-queue path (C1, C7)

`WorkQueue.py` lines 554-589.  The in-memory element objects and the backing
store can disagree: `backend.updateElements` patches only the store, while
`x.load().__setitem__(...)` followed by `backend.saveElements` refreshes and
mutates the in-memory object and then persists it (`load()` returns the
element itself with its fields re-read from the store, as the local-queue
branch at lines 548-552 relies on).  We therefore track, per element, the
in-memory object `mem` and the persisted status `store`. -/

/-- Per-element state during `cancelWork`: the in-memory element and its
persisted status. Elements are fetched from the store, so initially the two
statuses agree. -/
structure CancelESt where
  mem : WQElement
  store : WQStatus
deriving DecidableEq, Repr

/-- An element as just fetched by `backend.getElements`. -/
def cancelInitSt (e : WQElement) : CancelESt := ⟨e, e.Status⟩

/-- `elements_to_cancel` update (lines 557, 564-566): elements with a falsy
`ChildQueueUrl` whose status is not already `Canceled` are patched in the
store to `Canceled` (`backend.updateElements`; the in-memory object is not
touched). -/
def cancelPhaseNoChild (s : CancelESt) : CancelESt :=
  if truthyOpt s.mem.ChildQueueUrl = false ∧ s.mem.Status ≠ WQStatus.Canceled then
    { s with store := WQStatus.Canceled }
  else s

/-- `elements_not_requested` update (lines 560-561, 568-573): elements with
a truthy `ChildQueueUrl` that are neither `CancelRequested` nor in an end
state are set to `CancelRequested` in memory (`x.load().__setitem__`) and
saved (`backend.saveElements`). -/
def cancelPhaseChild (s : CancelESt) : CancelESt :=
  if truthyOpt s.mem.ChildQueueUrl = true ∧ s.mem.Status ≠ WQStatus.CancelRequested ∧
      inEndState s.mem.Status = false then
    { mem := { s.mem with Status := WQStatus.CancelRequested },
      store := WQStatus.CancelRequested }
  else s

/-- Grace-time loop body (lines 584-586): for each in-memory element not in
an end state, re-load it from the store and set its status to `Canceled`
(re-loading refreshes the status from the store; the subsequent assignment
overwrites it, so the net in-memory effect is `Status := Canceled`). -/
def graceMutate (s : CancelESt) : CancelESt :=
  if inEndState s.mem.Status = false then
    { s with mem := { s.mem with Status := WQStatus.Canceled } }
  else s

/-- Grace-time save (line 587): `saveElements(*[x for x in elements if not
x.inEndState()])` — persist the in-memory status of exactly those elements
that are, at this point, not in an end state. -/
def graceSave (s : CancelESt) : CancelESt :=
  if inEndState s.mem.Status = false then { s with store := s.mem.Status } else s

/-- `max([float(x.updatetime) for x in elements])` (line 580), 0 if empty. -/
def lastUpdateTime (es : List WQElement) : Int :=
  ((es.map (fun e => e.updatetime)).max?).getD 0

/-- Result of the global-queue `cancelWork` path: the per-element mem/store
states and the updated inbox elements. -/
structure CancelResult where
  elements : List CancelESt
  inbox : List WQElement
deriving DecidableEq, Repr

/-- `WorkQueue.cancelWork`, global-queue branch (lines 554-589), acting on
the fetched workflow elements and the fetched inbox elements of the
affected workflows.  `now` is `time.time()` and `graceTime` the
`cancelGraceTime` parameter. -/
def cancelWorkGlobal (now graceTime : Int) (elements inbox : List WQElement) :
    CancelResult :=
  let sts := elements.map cancelInitSt
  let afterA := sts.map cancelPhaseNoChild
  let afterB := afterA.map cancelPhaseChild
  let inboxAfter := inbox.map (fun e =>
    if e.Status ≠ WQStatus.CancelRequested ∧ inEndState e.Status = false then
      { e with Status := WQStatus.CancelRequested }
    else e)
  let afterD :=
    if graceTime > 0 ∧ elements ≠ [] ∧ now - lastUpdateTime elements > graceTime then
      (afterB.map graceMutate).map graceSave
    else afterB
  ⟨afterD, inboxAfter⟩

/-- The grace-time phase persists nothing: after the mutation loop every
element is in an end state, so the save-list comprehension is empty. -/
theorem graceSave_graceMutate_store (s : CancelESt) :
    (graceSave (graceMutate s)).store = s.store := by
  have hC : inEndState WQStatus.Canceled = true := rfl
  unfold graceMutate graceSave
  cases h : inEndState s.mem.Status with
  | false => simp [h, hC]
  | true => simp [h]

/-- Per-element persisted status after the two status-update phases. -/
theorem cancelPhases_store (e : WQElement) :
    (cancelPhaseChild (cancelPhaseNoChild (cancelInitSt e))).store =
      (if truthyOpt e.ChildQueueUrl = false ∧ e.Status ≠ WQStatus.Canceled then
        WQStatus.Canceled
      else if truthyOpt e.ChildQueueUrl = true ∧ e.Status ≠ WQStatus.CancelRequested ∧
          inEndState e.Status = false then
        WQStatus.CancelRequested
      else e.Status) := by
  unfold cancelInitSt cancelPhaseNoChild cancelPhaseChild
  by_cases h1 : truthyOpt e.ChildQueueUrl = false ∧ e.Status ≠ WQStatus.Canceled
  · have h2 : ¬(truthyOpt e.ChildQueueUrl = true ∧ e.Status ≠ WQStatus.CancelRequested ∧
        inEndState e.Status = false) := by
      intro h2
      exact absurd h1.1 (by simp [h2.1])
    simp [h1, h2]
  · by_cases h2 : truthyOpt e.ChildQueueUrl = true ∧ e.Status ≠ WQStatus.CancelRequested ∧
        inEndState e.Status = false
    · simp [h1, h2]
    · simp [h1, h2]

/-- C1: in the global-queue path of `cancelWork`, the persisted status of
every passed element becomes `Canceled` when it has no (falsy)
`ChildQueueUrl` and is not already `Canceled`; becomes `CancelRequested`
when it has a `ChildQueueUrl` and is neither already `CancelRequested` nor
in an end state; and is unchanged otherwise — and every inbox element of
the affected workflows that is neither already `CancelRequested` nor in an
end state becomes `CancelRequested`. -/
theorem C1_cancelWork_global (now graceTime : Int) (elements inbox : List WQElement) :
    ((cancelWorkGlobal now graceTime elements inbox).elements.map (fun s => s.store)) =
      elements.map (fun e =>
        if truthyOpt e.ChildQueueUrl = false ∧ e.Status ≠ WQStatus.Canceled then
          WQStatus.Canceled
        else if truthyOpt e.ChildQueueUrl = true ∧ e.Status ≠ WQStatus.CancelRequested ∧
            inEndState e.Status = false then
          WQStatus.CancelRequested
        else e.Status) ∧
    (cancelWorkGlobal now graceTime elements inbox).inbox =
      inbox.map (fun e =>
        if e.Status ≠ WQStatus.CancelRequested ∧ inEndState e.Status = false then
          { e with Status := WQStatus.CancelRequested }
        else e) := by
  refine ⟨?_, rfl⟩
  simp only [cancelWorkGlobal]
  by_cases hg : graceTime > 0 ∧ elements ≠ [] ∧ now - lastUpdateTime elements > graceTime
  · rw [if_pos hg]
    simp only [List.map_map]
    refine List.map_congr_left (fun e _ => ?_)
    simp only [Function.comp_apply, graceSave_graceMutate_store, cancelPhases_store]
  · rw [if_neg hg]
    simp only [List.map_map]
    refine List.map_congr_left (fun e _ => ?_)
    simp only [Function.comp_apply, cancelPhases_store]

/-- A stalled `Running` element held by a child queue, last updated at
time 0. -/
def graceElem : WQElement :=
  { elemId := 3, RequestName := "stalledwf", Status := WQStatus.Running,
    ChildQueueUrl := some "http://child.example/wq", updatetime := 0 }

/-- C7: with `cancelGraceTime = 10` elapsed long since the last update
(`now = 100000`), the grace-time branch of the global `cancelWork` is taken
and sets the element's in-memory status to `Canceled`, but the save list is
filtered *after* that mutation, so nothing is persisted: the store keeps
`CancelRequested` instead of the `Canceled` the claim (and the code's own
"mark as finished" log message) require. -/
theorem C7_grace_phase_saves_nothing :
    ((10:Int) > 0 ∧ [graceElem] ≠ [] ∧ (100000:Int) - lastUpdateTime [graceElem] > 10) ∧
    ((cancelWorkGlobal 100000 10 [graceElem] []).elements.map (fun s => s.mem.Status)) =
      [WQStatus.Canceled] ∧
    ((cancelWorkGlobal 100000 10 [graceElem] []).elements.map (fun s => s.store)) =
      [WQStatus.CancelRequested] := by
  refine ⟨⟨by decide, by decide, by decide⟩, by decide, by decide⟩

/-! ### `pullWork` (C4, C5)

`WorkQueue.py` lines 728-752 (`pullWorkConditionCheck`), 754-769
(`freeResouceCheck`, resources-supplied path), 771-778
(`getAvailableWorkfromParent`), 477-487 (`_assignToChildQueue`) and 780-801
(`pullWork`). -/

/-- The local queue's view of itself and of the stores it queries during
`pullWork`: its configuration parameters, the parent queue's elements, its
own inbox elements, and its own split elements. -/
structure PullQueueState where
  ParentQueueCouchUrl : Option String
  QueueURL : String
  WMBSUrl : Option String
  backendAvailable : Bool
  parentAvailable : Bool
  parentElements : List WQElement
  inboxElements : List WQElement
  localElements : List WQElement
  WorkPerCycle : Nat
deriving Repr

/-- `parent_queue.getElements('Negotiating', ChildQueueUrl=self.params['QueueURL'])`
(lines 739-740): elements already being transferred to this queue. -/
def parentNegotiatingHere (st : PullQueueState) : List WQElement :=
  st.parentElements.filter
    (fun e => e.Status == WQStatus.Negotiating && e.ChildQueueUrl == some st.QueueURL)

/-- `self.backend.getInboxElements('Negotiating', ...)` (line 746): local
inbox elements still being split. -/
def inboxNegotiating (st : PullQueueState) : List WQElement :=
  st.inboxElements.filter (fun e => e.Status == WQStatus.Negotiating)

/-- `WorkQueue.pullWorkConditionCheck` (lines 728-752): the parent queue URL
must be configured (truthy), both backends must be available, no previously
assigned element may still be `Negotiating` on the parent, and no local
*inbox* element may still be `Negotiating`.  The four guards short-circuit
to `False`; this conjunction is equivalent. -/
def pullWorkConditionCheck (st : PullQueueState) : Bool :=
  truthyOpt st.ParentQueueCouchUrl && (st.backendAvailable && st.parentAvailable) &&
    (parentNegotiatingHere st).isEmpty && (inboxNegotiating st).isEmpty

/-- `WorkQueue.freeResouceCheck` (lines 754-769), resources-supplied path:
falsy (empty) resources mean `(False, False)`, i.e. nothing to pull.  (When
no resources are passed the source derives them from WMBS, an external
substrate call.) -/
def freeResouceCheck (resources : List (String × Int)) : Option (List (String × Int)) :=
  if resources.isEmpty then none else some resources

/-- Matcher candidate order (spec §4.5 step 2): higher `Priority` first,
FIFO by `InsertTime` within a priority band. -/
def matchBefore (a b : WQElement) : Bool :=
  decide (b.Priority < a.Priority) ||
    (decide (a.Priority = b.Priority) && decide (a.InsertTime ≤ b.InsertTime))

/-- Stable insertion of an element into a list sorted by `le`. -/
def insertSorted (le : WQElement → WQElement → Bool) (e : WQElement) :
    List WQElement → List WQElement
  | [] => [e]
  | x :: xs => if le e x then e :: x :: xs else x :: insertSorted le e xs

/-- Stable insertion sort by `le`. -/
def sortElems (le : WQElement → WQElement → Bool) (l : List WQElement) : List WQElement :=
  l.foldr (insertSorted le) []

/-- Spec §4.5 step 3: an acceptable site for an element — a site of
`PossibleSites` with free slots, tie-broken alphabetically. -/
def pickSite (slots : List (String × Int)) (e : WQElement) : Option String :=
  ((slots.filter (fun sc => decide (0 < sc.2) && e.PossibleSites.contains sc.1)).map
    (fun sc => sc.1)).min?

/-- Decrement a site's free slots by the element's job count (§4.5 step 4). -/
def decSlots (slots : List (String × Int)) (site : String) (jobs : Int) :
    List (String × Int) :=
  slots.map (fun sc => if sc.1 == site then (sc.1, sc.2 - jobs) else sc)

/-- Greedy admission loop of the matcher (§4.5 steps 3-5), walking the
sorted candidate list with the remaining element budget and slot table. -/
def availableWorkGo : List WQElement → Nat → List (String × Int) → List WQElement
  | [], _, _ => []
  | _ :: _, 0, _ => []
  | e :: rest, Nat.succ k, slots =>
      match pickSite slots e with
      | some s => e :: availableWorkGo rest k (decSlots slots s e.Jobs)
      | none => availableWorkGo rest (Nat.succ k) slots

/-- Modelled from the spec: `WorkQueueBackend.availableWork`
(`WorkQueueBackend.py` is not in the snapshot).  §4.5: select `Available`
elements with an eligible site, ordered by priority (descending) then
insertion time, greedily decrementing site slots, up to `numElems`
elements. -/
def availableWork (slots : List (String × Int)) (numElems : Nat)
    (es : List WQElement) : List WQElement :=
  availableWorkGo
    (sortElems matchBefore (es.filter (fun e => e.Status == WQStatus.Available)))
    numElems slots

/-- `WorkQueue._assignToChildQueue` (lines 477-487): mark each pulled
element `Negotiating`, point it at this queue (`ChildQueueUrl`), at the
parent (`ParentQueueUrl`) and at this queue's WMBS (`WMBSUrl`); the result
is what `parent_queue.saveElements` persists on the parent. -/
def assignToChildQueue (st : PullQueueState) (work : List WQElement) : List WQElement :=
  work.map (fun e =>
    { e with Status := WQStatus.Negotiating, ChildQueueUrl := some st.QueueURL,
             ParentQueueUrl := st.ParentQueueCouchUrl, WMBSUrl := st.WMBSUrl })

/-- Outcome of `pullWork`: its return value (number of acquired units), the
element versions saved on the parent queue, and the local queue's element
collection afterwards. -/
structure PullResult where
  count : Nat
  saved : List WQElement
  localElements : List WQElement
deriving Repr, DecidableEq

/-- `WorkQueue.pullWork` (lines 780-801) with resources supplied: check the
pull preconditions, check free resources, fetch available work from the
parent, and assign it to this queue on the parent.  No operation of
`pullWork` writes to the local element collection. -/
def pullWork (st : PullQueueState) (resources : List (String × Int)) : PullResult :=
  if pullWorkConditionCheck st = false then
    ⟨0, [], st.localElements⟩
  else
    match freeResouceCheck resources with
    | none => ⟨0, [], st.localElements⟩
    | some res =>
        let work := availableWork res st.WorkPerCycle st.parentElements
        if work.isEmpty then ⟨0, [], st.localElements⟩
        else
          let saved := assignToChildQueue st work
          ⟨saved.length, saved, st.localElements⟩

/-- Reading the conjunction of pull preconditions. -/
theorem pullWorkConditionCheck_true {st : PullQueueState}
    (h : pullWorkConditionCheck st = true) :
    truthyOpt st.ParentQueueCouchUrl = true ∧
    parentNegotiatingHere st = [] ∧ inboxNegotiating st = [] := by
  unfold pullWorkConditionCheck at h
  simp only [Bool.and_eq_true, List.isEmpty_iff] at h
  exact ⟨h.1.1.1, h.1.2, h.2⟩

/-- C4 (amended): `pullWork` acquires no work unless the parent queue URL is
configured, no previously pulled element assigned to this queue is still
`Negotiating` on the parent, and no local *inbox* element is still
`Negotiating` (the source checks the local inbox, not the local split
elements). -/
theorem C4_pullWork_preconditions (st : PullQueueState)
    (resources : List (String × Int)) (h : (pullWork st resources).count ≠ 0) :
    truthyOpt st.ParentQueueCouchUrl = true ∧
    parentNegotiatingHere st = [] ∧ inboxNegotiating st = [] := by
  have ht : pullWorkConditionCheck st = true := by
    cases hc : pullWorkConditionCheck st with
    | false => exact absurd (by unfold pullWork; rw [if_pos hc]) h
    | true => rfl
  exact pullWorkConditionCheck_true ht

/-- An `Available` element sitting on the parent (global) queue. -/
def pullParentElem : WQElement :=
  { elemId := 21, RequestName := "wfP", Status := WQStatus.Available,
    Priority := 5, Jobs := 2, PossibleSites := ["SiteA"] }

/-- A local split element still in `Negotiating`. -/
def localNegotiatingElem : WQElement :=
  { elemId := 31, RequestName := "wfL", Status := WQStatus.Negotiating }

/-- A local queue state whose pull preconditions (as coded) all hold while a
local *split* element is still `Negotiating`. -/
def pullSt0 : PullQueueState :=
  { ParentQueueCouchUrl := some "http://global.example/workqueue",
    QueueURL := "http://local.example/workqueue",
    WMBSUrl := some "http://wmbs.example",
    backendAvailable := true, parentAvailable := true,
    parentElements := [pullParentElem],
    inboxElements := [],
    localElements := [localNegotiatingElem],
    WorkPerCycle := 100 }

/-- Free slots offered to `pullWork` in the concrete scenario. -/
def pullResources0 : List (String × Int) := [("SiteA", 4)]

/-- C4 counterexample: with a local split element still in `Negotiating`
(but an empty inbox), `pullWork` nevertheless acquires one unit of work —
the precondition claimed over local split elements is not enforced; the
code only checks the local inbox. -/
theorem C4_counterexample_split_negotiating :
    (pullWork pullSt0 pullResources0).count = 1 ∧
    localNegotiatingElem ∈ pullSt0.localElements ∧
    localNegotiatingElem.Status = WQStatus.Negotiating := by
  refine ⟨by decide, by decide, by decide⟩

/-- Witness for `C4_pullWork_preconditions` at the concrete state, where one
unit is acquired. -/
theorem C4_pullWork_preconditions_witness :
    truthyOpt pullSt0.ParentQueueCouchUrl = true ∧
    parentNegotiatingHere pullSt0 = [] ∧ inboxNegotiating pullSt0 = [] :=
  C4_pullWork_preconditions pullSt0 pullResources0 (by decide)

/-- C5 (amended): every element saved on the parent by `pullWork` carries
`Status=Negotiating`, `ChildQueueUrl` = this queue's URL, `ParentQueueUrl` =
the parent queue's URL and `WMBSUrl` = this queue's WMBS URL; and `pullWork`
itself inserts nothing into the local queue (the local element collection is
unchanged — local copies arrive through backend replication and splitting,
outside `pullWork`). -/
theorem C5_pullWork_assignment (st : PullQueueState) (resources : List (String × Int)) :
    (∀ e ∈ (pullWork st resources).saved,
      e.Status = WQStatus.Negotiating ∧ e.ChildQueueUrl = some st.QueueURL ∧
      e.ParentQueueUrl = st.ParentQueueCouchUrl ∧ e.WMBSUrl = st.WMBSUrl) ∧
    (pullWork st resources).localElements = st.localElements := by
  unfold pullWork
  by_cases h1 : pullWorkConditionCheck st = false
  · rw [if_pos h1]
    exact ⟨fun e he => absurd he (List.not_mem_nil e), rfl⟩
  · rw [if_neg h1]
    cases hr : freeResouceCheck resources with
    | none => exact ⟨fun e he => absurd he (List.not_mem_nil e), rfl⟩
    | some res =>
        simp only []
        by_cases hw : (availableWork res st.WorkPerCycle st.parentElements).isEmpty
        · rw [if_pos hw]
          exact ⟨fun e he => absurd he (List.not_mem_nil e), rfl⟩
        · rw [if_neg hw]
          refine ⟨fun e he => ?_, rfl⟩
          unfold assignToChildQueue at he
          rcases List.mem_map.mp he with ⟨w, _, hwe⟩
          subst hwe
          exact ⟨rfl, rfl, rfl, rfl⟩

/-- The parent element of the concrete scenario as `pullWork` saves it back
on the parent queue. -/
def savedElem0 : WQElement :=
  { elemId := 21, RequestName := "wfP", Status := WQStatus.Negotiating,
    ChildQueueUrl := some "http://local.example/workqueue",
    ParentQueueUrl := some "http://global.example/workqueue",
    WMBSUrl := some "http://wmbs.example",
    Priority := 5, Jobs := 2, PossibleSites := ["SiteA"] }

/-- Witness for `C5_pullWork_assignment` at the concrete pull scenario. -/
theorem C5_pullWork_assignment_witness :
    savedElem0 ∈ (pullWork pullSt0 pullResources0).saved ∧
    (savedElem0.Status = WQStatus.Negotiating ∧
      savedElem0.ChildQueueUrl = some pullSt0.QueueURL ∧
      savedElem0.ParentQueueUrl = pullSt0.ParentQueueCouchUrl ∧
      savedElem0.WMBSUrl = pullSt0.WMBSUrl) ∧
    (pullWork pullSt0 pullResources0).localElements = pullSt0.localElements :=
  ⟨by decide,
   (C5_pullWork_assignment pullSt0 pullResources0).1 savedElem0 (by decide),
   (C5_pullWork_assignment pullSt0 pullResources0).2⟩

/-- C5 counterexample: in the concrete scenario `pullWork` acquires one
element and saves it on the parent, yet no copy with `Status=Available` is
inserted into the local queue — the local element collection is exactly
what it was before the call, refuting the claim's local-insertion step. -/
theorem C5_counterexample_no_local_insert :
    (pullWork pullSt0 pullResources0).count = 1 ∧
    (pullWork pullSt0 pullResources0).saved = [savedElem0] ∧
    (pullWork pullSt0 pullResources0).localElements = [localNegotiatingElem] ∧
    ¬ (∃ e, e ∈ (pullWork pullSt0 pullResources0).localElements ∧
          e.Status = WQStatus.Available) := by
  refine ⟨by decide, by decide, by decide, ?_⟩
  intro ⟨e, he, hs⟩
  have : e = localNegotiatingElem := by
    have h1 : (pullWork pullSt0 pullResources0).localElements = [localNegotiatingElem] := by
      decide
    rw [h1] at he
    exact List.mem_singleton.mp he
  rw [this] at hs
  exact absurd hs (by decide)

/-! ### `closeWork` (C6)

`WorkQueue.py` lines 803-889, global-queue path without an explicit
workflow list.  The start-policy questions (`supportsWorkAddition`,
`newDataAvailable`, asked of external policy/spec objects) are summarised
per element by a boolean `newData`: "some top-level task's policy supports
work addition and reports new data available". -/

/-- The fields of an open inbox element that `closeWork` reads:
`element.get('StartPolicy', {}).get('OpenRunningTimeout', 0)` (0 when the
policy defines none) and `element.get('TimestampFoundNewData', 0)`. -/
structure InboxClose where
  RequestName : String
  OpenForNewData : Bool
  OpenRunningTimeout : Int
  TimestampFoundNewData : Int
deriving DecidableEq, Repr

/-- What `closeWork` decides for one open inbox element. -/
inductive CloseOutcome where
  /-- appended to `workflowsToClose`, i.e. `OpenForNewData` set to false -/
  | closed
  /-- new data available: `TimestampFoundNewData` updated, element skipped -/
  | keptOpenNewData
  /-- timeout not yet exceeded: element left open -/
  | keptOpenWaiting
  /-- no child elements: error logged, element left open -/
  | keptOpenNoChildren
deriving DecidableEq, Repr

/-- The per-element decision of `closeWork` (lines 828-870): close at once
when the policy's `OpenRunningTimeout` is absent or 0 (falsy); otherwise,
if new data is available keep the element open (recording the find);
otherwise, with children present, close exactly when the time since the
later of `TimestampFoundNewData` and the newest child update strictly
exceeds the timeout. -/
def closeDecision (now : Int) (e : InboxClose) (newData : Bool)
    (childUpdateTimes : List Int) : CloseOutcome :=
  if e.OpenRunningTimeout = 0 then CloseOutcome.closed
  else if newData then CloseOutcome.keptOpenNewData
  else
    match childUpdateTimes.max? with
    | some lastUpdate =>
        if now - max e.TimestampFoundNewData lastUpdate > e.OpenRunningTimeout then
          CloseOutcome.closed
        else CloseOutcome.keptOpenWaiting
    | none => CloseOutcome.keptOpenNoChildren

/-- The element as persisted after `closeWork` handles it: closed elements
get `OpenForNewData=false` (line 875), skipped-for-new-data elements get
`TimestampFoundNewData=now` (line 850), the rest are untouched. -/
def closeWorkElement (now : Int) (e : InboxClose) (newData : Bool)
    (childUpdateTimes : List Int) : InboxClose :=
  match closeDecision now e newData childUpdateTimes with
  | CloseOutcome.closed => { e with OpenForNewData := false }
  | CloseOutcome.keptOpenNewData => { e with TimestampFoundNewData := now }
  | _ => e

/-- `WorkQueue.closeWork` over the inbox: only elements fetched with
`OpenForNewData=True` (line 825) are examined. -/
def closeWork (now : Int) (items : List (InboxClose × Bool × List Int)) :
    List InboxClose :=
  items.map (fun it =>
    if it.1.OpenForNewData then closeWorkElement now it.1 it.2.1 it.2.2 else it.1)

/-- The inbox element of the concrete §8 S4 scenario:
`OpenRunningTimeout=3600`, no new-data find recorded. -/
def closeScenarioElem : InboxClose :=
  { RequestName := "openwf", OpenForNewData := true,
    OpenRunningTimeout := 3600, TimestampFoundNewData := 0 }

/-- C6: an open inbox element with children is closed exactly when its
policy has no `OpenRunningTimeout` (0/absent), or no new data is available
and the elapsed time since the later of `TimestampFoundNewData` and the
newest child update strictly exceeds the timeout; when the timeout is set
and new data is available, the element instead records
`TimestampFoundNewData=now` and stays open.  In particular, with timeout
3600, last child update at 0 and no new data, the element stays open at
t=3599 and closes at t=3601. -/
theorem C6_closeWork_timeout (now : Int) (e : InboxClose) (newData : Bool)
    (children : List Int) (hne : children ≠ []) :
    (closeDecision now e newData children = CloseOutcome.closed ↔
      (e.OpenRunningTimeout = 0 ∨
        (newData = false ∧
          now - max e.TimestampFoundNewData (children.max?.getD 0) >
            e.OpenRunningTimeout))) ∧
    (e.OpenRunningTimeout ≠ 0 → newData = true →
      closeWorkElement now e newData children = { e with TimestampFoundNewData := now }) ∧
    closeDecision 3599 closeScenarioElem false [0] = CloseOutcome.keptOpenWaiting ∧
    closeDecision 3601 closeScenarioElem false [0] = CloseOutcome.closed := by
  refine ⟨?_, ?_, by decide, by decide⟩
  · cases children with
    | nil => exact absurd rfl hne
    | cons c cs =>
      have hm : (c :: cs).max? = some (cs.foldl max c) := rfl
      unfold closeDecision
      rw [hm]
      by_cases h0 : e.OpenRunningTimeout = 0
      · simp [h0]
      · rw [if_neg h0]
        cases newData with
        | true => simp [h0]
        | false =>
          by_cases htime :
              now - max e.TimestampFoundNewData (cs.foldl max c) > e.OpenRunningTimeout
          · simp [h0, htime]
          · simp [h0, htime]
  · intro h0 hnd
    unfold closeWorkElement closeDecision
    rw [if_neg h0]
    simp [hnd]

/-- Witness for `C6_closeWork_timeout` at the S4 scenario (t=3601, element
with timeout 3600, one child last updated at 0, no new data): the close
condition evaluates to closing. -/
theorem C6_closeWork_timeout_witness :
    (([0] : List Int) ≠ []) ∧
    (closeDecision 3601 closeScenarioElem false [0] = CloseOutcome.closed ↔
      (closeScenarioElem.OpenRunningTimeout = 0 ∨
        (false = false ∧
          (3601:Int) - max closeScenarioElem.TimestampFoundNewData
              (([0] : List Int).max?.getD 0) >
            closeScenarioElem.OpenRunningTimeout))) :=
  ⟨by decide, (C6_closeWork_timeout 3601 closeScenarioElem false [0] (by decide)).1⟩

/-! ### `getWork` (C8)

`WorkQueue.py` lines 320-383 (`getWork`) and 430-449 (`_wmbsPreparation`).
The external RPCs — the DBS/PhEDEx data lookup of `_getDBSDataset` /
`_getDBSBlock` and the WMBS subscription creation of `_wmbsPreparation` —
are recorded on each matched element as `RPCResult` outcomes. -/

/-- Outcome of an external RPC: a value, or a raised exception message. -/
inductive RPCResult (α : Type) where
  | ok (val : α)
  | err (msg : String)
deriving DecidableEq, Repr

/-- `RPCResult.ok` test. -/
def rpcOk {α : Type} : RPCResult α → Bool
  | RPCResult.ok _ => true
  | RPCResult.err _ => false

/-- A matched element inside `getWork`, together with the outcomes of the
external calls made for it: `dbsResult` for the block/dataset data lookup
and `subResult` for `createSubscriptionAndAddFiles`, which returns the
subscription id and the number of files added. -/
structure WorkMatch where
  elemId : Nat
  RequestName : String
  StartPolicy : String
  hasInputs : Bool
  Status : WQStatus
  dbsResult : RPCResult Unit
  subResult : RPCResult (Nat × Nat)
deriving DecidableEq, Repr

/-- Lines 355-359: data is looked up when the start policy is `Dataset` or
the element has `Inputs`. -/
def needsDataLookup (m : WorkMatch) : Bool :=
  m.StartPolicy == "Dataset" || m.hasInputs

/-- The data-lookup step succeeded (vacuously, when no lookup is needed). -/
def dataOk (m : WorkMatch) : Bool :=
  !needsDataLookup m || rpcOk m.dbsResult

/-- Both external steps for this match succeeded. -/
def stepOk (m : WorkMatch) : Bool :=
  dataOk m && rpcOk m.subResult

/-- A processed element as appended to `results`: on success
`_wmbsPreparation` sets `Status='Running'`, `SubscriptionId` and
`NumOfFilesAdded` (lines 438-447). -/
structure WorkResultElem where
  elemId : Nat
  RequestName : String
  Status : WQStatus
  SubscriptionId : Option Nat
  NumOfFilesAdded : Option Nat
deriving DecidableEq, Repr

/-- A central log DB action: `self.logdb.post(workflow, msg, severity)` or
`self.logdb.delete(workflow, severity, this_thread=True)`. -/
inductive LogAction where
  | post (workflow severity : String)
  | del (workflow severity : String)
deriving DecidableEq, Repr

/-- The body of `getWork`'s per-match loop (lines 345-379): without
`PopulateFilesets` the match is appended untouched; with it, a failed data
lookup or subscription creation posts an error record keyed by the workflow
name and skips the element (`continue`); success transitions the element to
`Running` with `SubscriptionId`/`NumOfFilesAdded` set and clears previous
error records. -/
def getWorkStep (populate : Bool) (m : WorkMatch) :
    Option WorkResultElem × List LogAction :=
  if populate = false then
    (some ⟨m.elemId, m.RequestName, m.Status, none, none⟩, [])
  else if dataOk m = false then
    (none, [LogAction.post m.RequestName "error"])
  else
    match m.subResult with
    | RPCResult.err _ => (none, [LogAction.post m.RequestName "error"])
    | RPCResult.ok sn =>
        (some ⟨m.elemId, m.RequestName, WQStatus.Running, some sn.1, some sn.2⟩,
         [LogAction.del m.RequestName "error"])

/-- `WorkQueue.getWork` over the matched elements: the collected `results`
list and the log DB actions, in match order. -/
def getWork (populate : Bool) (ms : List WorkMatch) :
    List WorkResultElem × List LogAction :=
  match ms with
  | [] => ([], [])
  | m :: rest =>
      let step := getWorkStep populate m
      let acc := getWork populate rest
      (match step.1 with
       | some x => x :: acc.1
       | none => acc.1,
       step.2 ++ acc.2)

/-- A failing step produces no result and one error post for the workflow. -/
theorem getWorkStep_fail (m : WorkMatch) (h : stepOk m = false) :
    (getWorkStep true m).1 = none ∧
    (getWorkStep true m).2 = [LogAction.post m.RequestName "error"] := by
  unfold getWorkStep stepOk at *
  cases hd : dataOk m with
  | false => simp [hd]
  | true =>
      rw [hd] at h
      simp only [Bool.true_and] at h
      cases hs : m.subResult with
      | ok v => rw [hs] at h; exact absurd h (by simp [rpcOk])
      | err msg => simp [hd, hs]

/-- A succeeding step produces the `Running` element with subscription id
and files-added count, and no error post. -/
theorem getWorkStep_ok (m : WorkMatch) (h : stepOk m = true) :
    ∃ sn : Nat × Nat, m.subResult = RPCResult.ok sn ∧
      (getWorkStep true m).1 =
        some ⟨m.elemId, m.RequestName, WQStatus.Running, some sn.1, some sn.2⟩ ∧
      (getWorkStep true m).2 = [LogAction.del m.RequestName "error"] := by
  unfold stepOk at h
  rcases Bool.and_eq_true_iff.mp h with ⟨hd, hs⟩
  cases hsub : m.subResult with
  | err msg => rw [hsub] at hs; exact absurd hs (by simp [rpcOk])
  | ok sn =>
      refine ⟨sn, rfl, ?_, ?_⟩ <;> · unfold getWorkStep; simp [hd, hsub]

/-- `getWork` results are the per-match step results, filtered. -/
theorem getWork_results (populate : Bool) (ms : List WorkMatch) :
    (getWork populate ms).1 =
      ms.filterMap (fun m => (getWorkStep populate m).1) := by
  induction ms with
  | nil => rfl
  | cons m rest ih =>
      unfold getWork
      cases h : (getWorkStep populate m).1 <;>
        simp [h, ih, List.filterMap_cons]

/-- `getWork` log actions are the concatenated per-match step logs. -/
theorem getWork_logs (populate : Bool) (ms : List WorkMatch) :
    (getWork populate ms).2 =
      ms.flatMap (fun m => (getWorkStep populate m).2) := by
  induction ms with
  | nil => rfl
  | cons m rest ih => unfold getWork; simp [ih]

/-- The batch never fails: `getWork` returns exactly one result per match
whose external steps succeeded. -/
theorem getWork_length (ms : List WorkMatch) :
    (getWork true ms).1.length = (ms.filter stepOk).length := by
  rw [getWork_results]
  induction ms with
  | nil => rfl
  | cons x rest ih =>
      cases hx : stepOk x with
      | false =>
          rw [List.filterMap_cons, (getWorkStep_fail x hx).1]
          simp [List.filter_cons, hx, ih]
      | true =>
          rcases getWorkStep_ok x hx with ⟨sn, _, h1, _⟩
          rw [List.filterMap_cons, h1]
          simp [List.filter_cons, hx, ih]

/-- C8: in `getWork` with fileset population, a matched element whose data
lookup or subscription creation fails is excluded from the returned results
(given distinct element ids) and an error record keyed by its workflow name
is posted to the central log DB; every other matched element is still
processed — the batch yields exactly the successful elements, each
transitioned to `Running` with its `SubscriptionId` and `NumOfFilesAdded`
set. -/
theorem C8_getWork_skip_and_log (ms : List WorkMatch) (m : WorkMatch)
    (hm : m ∈ ms) :
    (stepOk m = false →
      LogAction.post m.RequestName "error" ∈ (getWork true ms).2 ∧
      ((ms.map (fun x => x.elemId)).Nodup →
        ∀ r ∈ (getWork true ms).1, r.elemId ≠ m.elemId)) ∧
    (stepOk m = true →
      ∃ sn : Nat × Nat, m.subResult = RPCResult.ok sn ∧
        (⟨m.elemId, m.RequestName, WQStatus.Running, some sn.1, some sn.2⟩ :
            WorkResultElem) ∈ (getWork true ms).1) ∧
    (getWork true ms).1.length = (ms.filter stepOk).length := by
  refine ⟨fun hfail => ⟨?_, ?_⟩, fun hok => ?_, ?_⟩
  · rw [getWork_logs]
    refine List.mem_flatMap.mpr ⟨m, hm, ?_⟩
    rw [(getWorkStep_fail m hfail).2]
    exact List.mem_singleton.mpr rfl
  · intro hnodup r hr heq
    rw [getWork_results] at hr
    rcases List.mem_filterMap.mp hr with ⟨m', hm', hstep⟩
    have hid : m'.elemId = m.elemId := by
      cases hs' : stepOk m' with
      | false => rw [(getWorkStep_fail m' hs').1] at hstep; exact absurd hstep (by simp)
      | true =>
          rcases getWorkStep_ok m' hs' with ⟨sn, _, h1, _⟩
          rw [h1] at hstep
          have h2 := Option.some.inj hstep
          calc m'.elemId = r.elemId := by rw [← h2]
            _ = m.elemId := heq
    have hmm : m' = m :=
      List.inj_on_of_nodup_map hnodup hm' hm (by rw [hid])
    rw [hmm] at hstep
    rw [(getWorkStep_fail m hfail).1] at hstep
    exact absurd hstep (by simp)
  · rcases getWorkStep_ok m hok with ⟨sn, hsub, h1, _⟩
    refine ⟨sn, hsub, ?_⟩
    rw [getWork_results]
    exact List.mem_filterMap.mpr ⟨m, hm, h1⟩
  · exact getWork_length ms

/-- A matched element whose DBS/PhEDEx lookup raises. -/
def matchFail : WorkMatch :=
  { elemId := 1, RequestName := "wfbad", StartPolicy := "Block", hasInputs := true,
    Status := WQStatus.Available, dbsResult := RPCResult.err "DBS lookup raised",
    subResult := RPCResult.ok (7, 3) }

/-- A matched element whose external calls both succeed. -/
def matchGood : WorkMatch :=
  { elemId := 2, RequestName := "wfgood", StartPolicy := "Block", hasInputs := true,
    Status := WQStatus.Available, dbsResult := RPCResult.ok (),
    subResult := RPCResult.ok (9, 5) }

/-- Witness for `C8_getWork_skip_and_log`: in a batch of a failing and a
succeeding match, the failing one is logged and excluded from the results. -/
theorem C8_getWork_skip_and_log_witness :
    LogAction.post matchFail.RequestName "error" ∈ (getWork true [matchFail, matchGood]).2 ∧
    ((([matchFail, matchGood].map (fun x => x.elemId)).Nodup →
      ∀ r ∈ (getWork true [matchFail, matchGood]).1, r.elemId ≠ matchFail.elemId)) :=
  (C8_getWork_skip_and_log [matchFail, matchGood] matchFail (by decide)).1 (by decide)

/-! ### `queueWork` (C9)

`WorkQueue.py` lines 605-636.  The spec object is external; only its name
matters here.  Everything `queueWork` does after validating the request
name (fetch or create the inbox element, split via
`processInboundWork(..., throw=True)`) is summarised by the supplied
`splitOutcome`; the validation precedes every backend write, so on the
mismatch path nothing is queued. -/

/-- The typed errors relevant to `queueWork`. -/
inductive WQError where
  | wmSpecError (request specName : String)
  | otherError (msg : String)
deriving DecidableEq, Repr

/-- Result of `queueWork`: a raised error, or the number of queued units. -/
inductive QueueWorkOutcome where
  | raised (e : WQError)
  | queued (n : Nat)
deriving DecidableEq, Repr

/-- `WorkQueue.queueWork` (lines 605-636): when a truthy `request` is
supplied and differs from the loaded spec's name, raise
`WorkQueueWMSpecError` before touching the queue; otherwise proceed with
inbox upsert and splitting (`splitOutcome`). -/
def queueWork (request : Option String) (specName : String)
    (splitOutcome : QueueWorkOutcome) : QueueWorkOutcome :=
  match request with
  | none => splitOutcome
  | some r =>
      if r == "" then splitOutcome
      else if r != specName then QueueWorkOutcome.raised (WQError.wmSpecError r specName)
      else splitOutcome

/-- C9: `queueWork` raises `WorkQueueWMSpecError` — and queues nothing,
since the raise precedes all queueing — exactly when a (truthy) request
name is supplied that differs from the spec's name; when they match, or no
request name is supplied, the validation raises no such error and the call
proceeds to the splitting outcome. -/
theorem C9_queueWork_name_check (r specName : String)
    (splitOutcome : QueueWorkOutcome) (hr : r ≠ "") :
    (r ≠ specName →
      queueWork (some r) specName splitOutcome =
        QueueWorkOutcome.raised (WQError.wmSpecError r specName)) ∧
    queueWork (some specName) specName splitOutcome = splitOutcome ∧
    queueWork none specName splitOutcome = splitOutcome := by
  refine ⟨fun hne => ?_, ?_, rfl⟩
  · simp [queueWork, hr, hne]
  · simp [queueWork]

/-- Witness for `C9_queueWork_name_check` at concrete names: a mismatching
request raises the spec error, a matching or absent one does not. -/
theorem C9_queueWork_name_check_witness :
    (queueWork (some "req1") "spec1" (QueueWorkOutcome.queued 3) =
      QueueWorkOutcome.raised (WQError.wmSpecError "req1" "spec1")) ∧
    queueWork (some "spec1") "spec1" (QueueWorkOutcome.queued 3) =
      QueueWorkOutcome.queued 3 ∧
    queueWork none "spec1" (QueueWorkOutcome.queued 3) = QueueWorkOutcome.queued 3 :=
  ⟨(C9_queueWork_name_check "req1" "spec1" (QueueWorkOutcome.queued 3) (by decide)).1
      (by decide),
   (C9_queueWork_name_check "req1" "spec1" (QueueWorkOutcome.queued 3) (by decide)).2⟩

/-! ### `SingleShot` end policy (C2) -/

/-- The element fields the end policy reads; percentages and job counts are
numbers (modelled as rationals). -/
structure EPElement where
  Status : WQStatus
  PercentSuccess : ℚ
  PercentComplete : ℚ
  Jobs : ℚ
deriving DecidableEq, Repr

/-- Modelled from the spec: the `SingleShot` end policy aggregate status
(`WMCore/WorkQueue/Policy/End/SingleShot.py` is not in the snapshot; only
its unit test is).  §4.4: 1. any `CancelRequested` element makes the
aggregate `CancelRequested`; 2. when all elements are in an end state,
`success = Σ PercentSuccess·Jobs / Σ Jobs` normalised to [0,1] decides
`Done` (`success ≥ T`) versus `Failed`; 3. otherwise the aggregate is
`Running`, or `Negotiating` when no element exists yet. -/
def singleShotStatus (elements : List EPElement) (T : ℚ) : WQStatus :=
  if elements.any (fun e => e.Status == WQStatus.CancelRequested) then
    WQStatus.CancelRequested
  else if elements.isEmpty then WQStatus.Negotiating
  else if elements.all (fun e => inEndState e.Status) then
    let totalJobs := (elements.map (fun e => e.Jobs)).sum
    let success := ((elements.map (fun e => e.PercentSuccess * e.Jobs)).sum / totalJobs) / 100
    if T ≤ success then WQStatus.Done else WQStatus.Failed
  else WQStatus.Running

/-- A `Done` element with full success and weight `w`, as in the unit
test's `self.done`. -/
def doneElem (w : ℚ) : EPElement :=
  { Status := WQStatus.Done, PercentSuccess := 100, PercentComplete := 100, Jobs := w }

/-- A `Failed` element with zero success and weight `w`, as in the unit
test's `self.failed`. -/
def failedElem (w : ℚ) : EPElement :=
  { Status := WQStatus.Failed, PercentSuccess := 0, PercentComplete := 100, Jobs := w }

/-- `List.any` over a replicated list of an element failing the predicate. -/
theorem any_replicate_false {α : Type} (p : α → Bool) (x : α) (h : p x = false)
    (n : Nat) : (List.replicate n x).any p = false := by
  induction n with
  | zero => rfl
  | succ n ih => simp [List.replicate_succ, h, ih]

/-- `List.all` over a replicated list of an element satisfying the
predicate. -/
theorem all_replicate_true {α : Type} (p : α → Bool) (x : α) (h : p x = true)
    (n : Nat) : (List.replicate n x).all p = true := by
  induction n with
  | zero => rfl
  | succ n ih => simp [List.replicate_succ, h, ih]

/-- C2: for `SingleShot`, when every element is in an end state the
aggregate is `Done` exactly when the job-weighted success fraction reaches
the threshold, else `Failed`; and in the §8 S1 scenario — 100 end-state
elements of equal positive weight `w`, the first `k` of them `Done` with
`PercentSuccess=100` and the rest `Failed` with `PercentSuccess=0`, with
`T=0.9` — the aggregate is `Done` iff `k ≥ 90` and `Failed` iff `k < 90`. -/
theorem C2_singleShot_threshold (k : Nat) (hk : k ≤ 100) (w : ℚ) (hw : 0 < w) :
    (∀ (es : List EPElement) (T : ℚ), es ≠ [] →
      es.any (fun e => e.Status == WQStatus.CancelRequested) = false →
      es.all (fun e => inEndState e.Status) = true →
      singleShotStatus es T =
        if T ≤ ((es.map (fun e => e.PercentSuccess * e.Jobs)).sum /
            (es.map (fun e => e.Jobs)).sum) / 100 then WQStatus.Done
        else WQStatus.Failed) ∧
    (singleShotStatus
        (List.replicate k (doneElem w) ++ List.replicate (100 - k) (failedElem w))
        (9/10) = WQStatus.Done ↔ 90 ≤ k) ∧
    (singleShotStatus
        (List.replicate k (doneElem w) ++ List.replicate (100 - k) (failedElem w))
        (9/10) = WQStatus.Failed ↔ k < 90) := by
  have hgen : ∀ (es : List EPElement) (T : ℚ), es ≠ [] →
      es.any (fun e => e.Status == WQStatus.CancelRequested) = false →
      es.all (fun e => inEndState e.Status) = true →
      singleShotStatus es T =
        if T ≤ ((es.map (fun e => e.PercentSuccess * e.Jobs)).sum /
            (es.map (fun e => e.Jobs)).sum) / 100 then WQStatus.Done
        else WQStatus.Failed := by
    intro es T hne hany hall
    have hemp : es.isEmpty = false := by
      cases es with
      | nil => exact absurd rfl hne
      | cons a t => rfl
    unfold singleShotStatus
    simp [hany, hemp, hall]
  refine ⟨hgen, ?_⟩
  set L := List.replicate k (doneElem w) ++ List.replicate (100 - k) (failedElem w) with hL
  have hlen : L.length = 100 := by
    simp [hL, Nat.add_sub_cancel' hk]
  have hne : L ≠ [] := by
    intro h
    rw [h] at hlen
    simp at hlen
  have hany : L.any (fun e => e.Status == WQStatus.CancelRequested) = false := by
    rw [hL, List.any_append]
    rw [any_replicate_false _ _ (by rfl), any_replicate_false _ _ (by rfl)]
    rfl
  have hall : L.all (fun e => inEndState e.Status) = true := by
    rw [hL, List.all_append]
    rw [all_replicate_true _ _ (by rfl), all_replicate_true _ _ (by rfl)]
    rfl
  have hcast : ((100 - k : Nat) : ℚ) = 100 - (k : ℚ) := by
    push_cast [Nat.cast_sub hk]
    ring
  have hjobs : (L.map (fun e => e.Jobs)).sum = 100 * w := by
    simp only [hL, List.map_append, List.map_replicate, List.sum_append,
      List.sum_replicate, doneElem, failedElem, nsmul_eq_mul, hcast]
    ring
  have hps : (L.map (fun e => e.PercentSuccess * e.Jobs)).sum = (k : ℚ) * (100 * w) := by
    simp only [hL, List.map_append, List.map_replicate, List.sum_append,
      List.sum_replicate, doneElem, failedElem, nsmul_eq_mul, hcast]
    ring
  have hwne : (100 : ℚ) * w ≠ 0 := by
    exact mul_ne_zero (by norm_num) (ne_of_gt hw)
  have hsucc : ((L.map (fun e => e.PercentSuccess * e.Jobs)).sum /
      (L.map (fun e => e.Jobs)).sum) / 100 = (k : ℚ) / 100 := by
    rw [hps, hjobs, mul_div_cancel_right₀ _ hwne]
  have hstat : singleShotStatus L (9/10) =
      if (9:ℚ)/10 ≤ (k : ℚ) / 100 then WQStatus.Done else WQStatus.Failed := by
    rw [hgen L (9/10) hne hany hall, hsucc]
  have hiff : ((9:ℚ)/10 ≤ (k : ℚ) / 100) ↔ 90 ≤ k := by
    rw [div_le_div_iff₀ (by norm_num) (by norm_num)]
    constructor
    · intro h
      have h90 : (90 : ℚ) ≤ (k : ℚ) := by linarith
      exact_mod_cast h90
    · intro h
      have h90 : (90 : ℚ) ≤ (k : ℚ) := by exact_mod_cast h
      linarith
  constructor
  · rw [hstat]
    by_cases h90 : 90 ≤ k
    · simp [hiff.mpr h90, h90]
    · rw [if_neg (fun hc => h90 (hiff.mp hc))]
      simp [h90]
  · rw [hstat]
    by_cases h90 : 90 ≤ k
    · rw [if_pos (hiff.mpr h90)]
      simp [Nat.not_lt.mpr h90]
    · rw [if_neg (fun hc => h90 (hiff.mp hc))]
      simp [Nat.lt_of_not_le h90]

/-- Witness for `C2_singleShot_threshold` at `k = 95`, `w = 1`: 95 of 100
equal-weight end-state elements succeeded, so the aggregate is `Done`. -/
theorem C2_singleShot_threshold_witness :
    (singleShotStatus
        (List.replicate 95 (doneElem 1) ++ List.replicate (100 - 95) (failedElem 1))
        (9/10) = WQStatus.Done ↔ 90 ≤ 95) ∧
    (singleShotStatus
        (List.replicate 95 (doneElem 1) ++ List.replicate (100 - 95) (failedElem 1))
        (9/10) = WQStatus.Failed ↔ 95 < 90) :=
  (C2_singleShot_threshold 95 (by decide) 1 (by norm_num)).2
